import Mathlib

set_option linter.unusedVariables false

/-!
Shallow embedding of the packet-processing core of the STinG USB-ethernet
port driver (usbsting.c): the datagram queues, the ARP address cache, the
output pipeline (process_output / send_dgrams), the input IP and ARP
handlers (process_ip / process_arp), the frame writer (write_device /
send_arp) and the device up/down transition (set_device_state).

Transmitted frames and released datagrams are logged explicitly so that
the observable behaviour (which frames left the interface, which datagrams
reached a terminal outcome) can be stated and proved.
-/

/-- Ethernet hardware address length in bytes (ETH_ALEN in usbsting.h,
which is not under src/; value fixed by the ARP template initialisation
in install(): hardware_len = ETH_ALEN, protocol_len = 4). -/
def ETH_ALEN : Nat := 6

/-- Minimum Ethernet frame length (ETH_MIN_LEN).  Modelled from the spec:
usbsting.h is not under src/; spec section 4.3 gives the inbound frame
window as 60..1514 bytes and zero-padding of short frames to 60 bytes. -/
def ETH_MIN_LEN : Nat := 60

/-- Maximum Ethernet frame length (ETH_MAX_LEN).  Modelled from the spec:
usbsting.h is not under src/; spec section 4.3 gives the inbound frame
window as 60..1514 bytes. -/
def ETH_MAX_LEN : Nat := 1514

/-- Size of the Ethernet header, sizeof(ENET_HDR): two 6-byte hardware
addresses plus the 2-byte type field (uatool.c: ETH_HDR_LEN = 2*ETH_ALEN+2). -/
def ENET_HDR_SIZE : Nat := 14

/-- Size of the fixed IPv4 header, sizeof(IP_HDR): the fixed 20-byte
header (spec section 4.3: IP header-length at least the fixed header size,
options are what exceeds it). -/
def IP_HDR_SIZE : Nat := 20

/-- sizeof(ARP_PACKET): Ethernet header (14) plus the 28-byte
Ethernet/IPv4 ARP body. -/
def ARP_PACKET_SIZE : Nat := 42

/-- ARP hardware space value for Ethernet (ARP_HARD_ETHER). -/
def ARP_HARD_ETHER : Nat := 1

/-- Ethernet type field value for IP (ENET_TYPE_IP), also the ARP
protocol space for IPv4. -/
def ENET_TYPE_IP : Nat := 0x800

/-- ARP request opcode (ARP_OP_REQ). -/
def ARP_OP_REQ : Nat := 1

/-- ARP answer opcode (ARP_OP_ANS). -/
def ARP_OP_ANS : Nat := 2

/-- The all-ones Ethernet broadcast address, as a 48-bit value
(BROADCAST_ADDR / memset 0xff in the source). -/
def BROADCAST_ETHER : Nat := 0xffffffffffff

/-- Reinterpret a C expression truncated to uint16 and stored in an int16,
as the compiler for this driver does (16-bit ints are mandatory, see the
preprocessor check at the top of usbsting.c):
the value modulo 2^16, taken in twos complement. -/
def toInt16 (n : Nat) : Int :=
  if n % 65536 < 32768 then ((n % 65536 : Nat) : Int)
  else ((n % 65536 : Nat) : Int) - 65536

/-- 32-bit bitwise complement, as applied by the C operator ~ to the
uint32 subnet mask. -/
def compl32 (m : Nat) : Nat := 0xffffffff ^^^ (m % 4294967296)

/-- The slice of a STinG IP_DGRAM that the driver reads: destination IP
and gateway IP from the header, option and payload lengths (int16 fields
in the STinG IP_DGRAM, always non-negative), whether its TTL has expired
(the outcome of the STinG kernel call check_dgram_ttl, which the spec
section 4.2 describes as discarding/releasing expired datagrams), and an
identity used to track queue membership and release. -/
structure IP_DGRAM where
  ip_dest : Nat
  ip_gateway : Nat
  opt_length : Nat
  pkt_length : Nat
  expired : Bool
  id : Nat
deriving DecidableEq

/-- The fields of the inbound IP header that process_ip validates:
the header-length field hd_len (in 32-bit words), the total-length field,
and the addresses copied into the new datagram. -/
structure IP_HDR where
  hd_len : Nat
  length : Nat
  ip_dest : Nat
  ip_src : Nat
deriving DecidableEq

/-- An inbound ARP packet, with hardware addresses as 48-bit values and
IP addresses as 32-bit values. -/
structure ARP where
  hardware_space : Nat
  protocol_space : Nat
  hardware_len : Nat
  protocol_len : Nat
  op_code : Nat
  src_ether : Nat
  src_ip : Nat
  dest_ether : Nat
  dest_ip : Nat
deriving DecidableEq

/-- A frame handed to the USB transport by write_device: either the ARP
template packet (arp_enet_pkt) with its Ethernet and ARP fields at the
moment of transmission, or an IP frame (the op buffer) identified by the
datagram it carries and its on-wire length. -/
inductive Frame where
  | arpf (ethDest ethSrc opCode srcEther srcIp destEther destIp : Nat)
  | ipf (ethDest ethSrc dgramId : Nat) (len : Int)
deriving DecidableEq

/-- True of a frame exactly when it is an ARP packet with the answer
opcode: the shape of the reply frames process_arp produces. -/
def isReply : Frame → Bool
  | Frame.arpf _ _ opCode _ _ _ _ => opCode == ARP_OP_ANS
  | Frame.ipf _ _ _ _ => false

/-- The mutable fields of the shared outbound ARP template arp_enet_pkt:
Ethernet destination, opcode, ARP destination hardware address and ARP
destination IP.  (The constant fields set once in install() - type,
hardware/protocol space and lengths - are not repeated here; the source
fields are filled in by send_arp at transmission time.) -/
structure ArpTemplate where
  ethDest : Nat
  opCode : Nat
  destEther : Nat
  destIp : Nat
deriving DecidableEq

/-- The USBNET_STATS counters the core updates, flattened: a field
a_b here is stats.a.b in the C structure. -/
structure Stats where
  send_dequeued : Nat
  send_bad_length : Nat
  send_bad_host : Nat
  send_bad_network : Nat
  send_ip_packets : Nat
  send_arp_packets : Nat
  send_arp_packets_err : Nat
  arp_input_errors : Nat
  arp_opcode_errors : Nat
  arp_requests_received : Nat
  arp_answers_received : Nat
  arp_wait_queued : Nat
  arp_wait_dequeued : Nat
  arp_wait_requeued : Nat
  write_total_packets : Nat
  write_failed : Nat
deriving DecidableEq

/-- The all-zero counters (init_ext_port clears the whole extended port
with memset 0; CTL_ETHER_CLR_STAT does the same for the counters). -/
def stats0 : Stats :=
  { send_dequeued := 0, send_bad_length := 0, send_bad_host := 0
    send_bad_network := 0, send_ip_packets := 0, send_arp_packets := 0
    send_arp_packets_err := 0, arp_input_errors := 0, arp_opcode_errors := 0
    arp_requests_received := 0, arp_answers_received := 0, arp_wait_queued := 0
    arp_wait_dequeued := 0, arp_wait_requeued := 0, write_total_packets := 0
    write_failed := 0 }

/-- Modelled from the spec: the ARP address cache lives in arpcache.c,
which is not under src/.  Spec section 4.1/3: a fixed-capacity table of
slots, each empty or holding an (ip, hardware address) pair. -/
abbrev ArpCache := List (Option (Nat × Nat))

/-- Modelled from the spec: arp_cache(ip) - lookup, returning the cached
hardware address of the first slot holding ip, or nothing
(spec section 4.1, linear scan). -/
def arp_cache : ArpCache → Nat → Option Nat
  | [], _ => none
  | none :: rest, ip => arp_cache rest ip
  | some e :: rest, ip => if e.1 = ip then some e.2 else arp_cache rest ip

/-- The in-place overwrite process_arp performs on a cache hit:
memcpy(cachedEther, arp->src_ether, ETH_ALEN) through the pointer
arp_cache returned, i.e. the hardware-address field of the first slot
holding ip is replaced and nothing else moves. -/
def arp_update : ArpCache → Nat → Nat → ArpCache
  | [], _, _ => []
  | none :: rest, ip, hw => none :: arp_update rest ip hw
  | some e :: rest, ip, hw =>
    if e.1 = ip then some (e.1, hw) :: rest else some e :: arp_update rest ip hw

/-- Helper for arp_enter: write the new pair into the first free slot. -/
def enter_free : ArpCache → Nat → Nat → ArpCache
  | [], _, _ => []
  | none :: rest, ip, hw => some (ip, hw) :: rest
  | some e :: rest, ip, hw => some e :: enter_free rest ip hw

/-- Modelled from the spec: arp_enter(ip, hw) - insertion into the next
free slot (spec section 4.1); when the table is full, some slot is
evicted by a deterministic policy the spec leaves open (section 9) -
modelled here as evicting slot 0. -/
def arp_enter (cch : ArpCache) (ip hw : Nat) : ArpCache :=
  if cch.any Option.isNone then enter_free cch ip hw
  else
    match cch with
    | [] => []
    | _ :: rest => some (ip, hw) :: rest

/-- Number of occupied slots (spec section 4.1: count(), arp_count in the
driver). -/
def occupied (cch : ArpCache) : Nat := (cch.filter Option.isSome).length

/-- True of a slot holding the given IP address. -/
def slot_matches (ip : Nat) : Option (Nat × Nat) → Bool
  | some e => e.1 == ip
  | none => false

/-- Position of the slot holding the given IP address, if any. -/
def slot_pos : ArpCache → Nat → Option Nat
  | [], _ => none
  | none :: rest, ip => (slot_pos rest ip).map (· + 1)
  | some e :: rest, ip =>
    if e.1 = ip then some 0 else (slot_pos rest ip).map (· + 1)

/-- The state process_output, send_arp and process_arp share, apart from
the datagram queues: the port configuration (ip_addr, sub_mask,
macaddr), the ARP cache, the counters, the port byte/drop counters
(stat_sd_data, stat_dropped), the mutable ARP template, and the log of
frames handed to the transport. -/
structure Ctx where
  ip_addr : Nat
  sub_mask : Nat
  macaddr : Nat
  cache : ArpCache
  stats : Stats
  stat_sd_data : Nat
  stat_dropped : Nat
  tmpl : ArpTemplate
  txlog : List Frame
deriving DecidableEq

/-- The extended port together with its three datagram queues
(port->send, port->receive, x->arpwait), the port active flag, the
interface_up flag, the log of datagrams released back to the allocator
(IP_discard and expiry), and the set of live kernel allocations made by
process_ip (for tracking that rejection leaves nothing behind). -/
structure XPort where
  ctx : Ctx
  active : Bool
  interface_up : Bool
  send_q : List IP_DGRAM
  recv_q : List IP_DGRAM
  arpwait : List IP_DGRAM
  released : List IP_DGRAM
  allocs : List Nat
deriving DecidableEq

/-- Outcomes of the three KRmalloc calls in process_ip (the datagram
itself, the options buffer, the payload buffer); KRmalloc is a STinG
kernel collaborator, so its success is an environment input here. -/
structure AllocEnv where
  dgramOk : Bool
  optionsOk : Bool
  pktOk : Bool
deriving DecidableEq

/-- Result of a queue-draining loop: the updated shared state, the queue
the surviving entries ended up on, and the datagrams released during the
drain, in chronological order. -/
structure DrainResult where
  ctx : Ctx
  arpwait : List IP_DGRAM
  released : List IP_DGRAM
deriving DecidableEq

/-- Result of process_arp: return code, updated shared state, the new
arpwait queue and the datagrams released while draining it. -/
structure ArpResult where
  rc : Int
  ctx : Ctx
  arpwait : List IP_DGRAM
  released : List IP_DGRAM
deriving DecidableEq

/-- dequeue_dgram (usbsting.c:656): dequeue and return the first
unexpired dgram; leading expired dgrams are dequeued and dropped
(check_dgram_ttl releases an expired datagram, spec section 4.2).
Returns (the dequeued datagram if any, the remaining queue, the expired
entries that were released). -/
def dequeue_dgram : List IP_DGRAM → Option IP_DGRAM × List IP_DGRAM × List IP_DGRAM
  | [] => (none, [], [])
  | d :: rest =>
    if d.expired then
      let out := dequeue_dgram rest
      (out.1, out.2.1, d :: out.2.2)
    else (some d, rest, [])

/-- queue_dgram (usbsting.c:673): append the dgram at the tail of the
queue (the C walks the next pointers to the end). -/
def queue_dgram (queue : List IP_DGRAM) (dgram : IP_DGRAM) : List IP_DGRAM :=
  queue ++ [dgram]

/-- empty_queue (usbsting.c:928): release every entry (IP_discard) and
leave the queue empty.  Returns (the emptied queue, the released
entries). -/
def empty_queue (queue : List IP_DGRAM) : List IP_DGRAM × List IP_DGRAM :=
  ([], queue)

/-- set_device_state (usbsting.c:564): state not 0 opens the device
(open_device sets interface_up and always succeeds); state 0 closes it
(close_device always succeeds) and then empties the send and the receive
queue.  Returns (TRUE, the updated port). -/
def set_device_state (x : XPort) (state : Int) : Bool × XPort :=
  if state ≠ 0 then
    (true, { x with interface_up := true })
  else
    let x1 := { x with interface_up := false }
    let s := empty_queue x1.send_q
    let x2 := { x1 with send_q := s.1, released := x1.released ++ s.2 }
    let r := empty_queue x2.recv_q
    let x3 := { x2 with recv_q := r.1, released := x2.released ++ r.2 }
    (true, x3)

/-- write_device (usbsting.c:967): count the attempt, hand the frame to
the USB transport (asix_send / picowifi_send - external collaborators,
whose success is the environment input env at the current attempt
index), and return 0 on success or -1 with the failure counter bumped. -/
def write_device (env : Nat → Bool) (c : Ctx) (f : Frame) : Int × Ctx :=
  let c1 := { c with
    stats := { c.stats with write_total_packets := c.stats.write_total_packets + 1 }
    txlog := c.txlog ++ [f] }
  if env c.stats.write_total_packets then (0, c1)
  else (-1, { c1 with stats := { c1.stats with write_failed := c1.stats.write_failed + 1 } })

/-- send_arp (usbsting.c:910): fill the source fields of the shared ARP
template from the port, transmit it, count the packet, and credit the
sent bytes on success or count the error on failure. -/
def send_arp (env : Nat → Bool) (c : Ctx) : Int × Ctx :=
  let f := Frame.arpf c.tmpl.ethDest c.macaddr c.tmpl.opCode
    c.macaddr c.ip_addr c.tmpl.destEther c.tmpl.destIp
  let r := write_device env c f
  let c1 := { r.2 with
    stats := { r.2.stats with send_arp_packets := r.2.stats.send_arp_packets + 1 } }
  if r.1 = 0 then (r.1, { c1 with stat_sd_data := c1.stat_sd_data + ARP_PACKET_SIZE })
  else (r.1, { c1 with
    stats := { c1.stats with send_arp_packets_err := c1.stats.send_arp_packets_err + 1 } })

/-- The tail of process_output once the next-hop IP address has been
determined (the ip_address variable in the C): on a cache miss, point
the ARP template at the next hop as a broadcast request, transmit it
and report 0 (ok, not sent); on a hit, build the IP frame, pad it to the
minimum frame length, transmit, and report -1 on transport failure or
the IP length (header + options + payload, as an int16 in the C) on
success. -/
def resolve_output (env : Nat → Bool) (c : Ctx) (d : IP_DGRAM)
    (enet_length : Int) (ip_address : Nat) : Int × Ctx :=
  match arp_cache c.cache ip_address with
  | none =>
    let c1 := { c with tmpl :=
      { ethDest := BROADCAST_ETHER, opCode := ARP_OP_REQ
        destEther := BROADCAST_ETHER, destIp := ip_address } }
    let r := send_arp env c1
    (0, r.2)
  | some cachedEther =>
    let f := Frame.ipf cachedEther c.macaddr d.id
      (if enet_length < (ETH_MIN_LEN : Int) then (ETH_MIN_LEN : Int) else enet_length)
    let r := write_device env c f
    if r.1 ≠ 0 then (-1, r.2)
    else (toInt16 (IP_HDR_SIZE + d.opt_length + d.pkt_length),
      { r.2 with stats :=
        { r.2.stats with send_ip_packets := r.2.stats.send_ip_packets + 1 } })

/-- process_output (usbsting.c:689): validate the frame length (computed
as in the C: the sum cast to uint16, stored in an int16), reject "host 0
or ff" destinations, pick the next hop (destination if on-subnet, else
the gateway if on-subnet, else no route), then hand over to the cache
lookup / transmit tail.  Returns length sent (> 0), 0 for ok-but-not-
sent, or -1 for error, together with the updated state. -/
def process_output (env : Nat → Bool) (c : Ctx) (d : IP_DGRAM) : Int × Ctx :=
  let enet_length : Int :=
    toInt16 (ENET_HDR_SIZE + IP_HDR_SIZE + d.opt_length + d.pkt_length)
  if enet_length > (ETH_MAX_LEN : Int) then
    (-1, { c with stats := { c.stats with send_bad_length := c.stats.send_bad_length + 1 } })
  else
    let network := c.ip_addr &&& c.sub_mask
    if (d.ip_dest &&& compl32 c.sub_mask) = 0 ∨ (d.ip_dest &&& compl32 c.sub_mask) = 0xff then
      (-1, { c with stats := { c.stats with send_bad_host := c.stats.send_bad_host + 1 } })
    else if (d.ip_dest &&& c.sub_mask) = network then
      resolve_output env c d enet_length d.ip_dest
    else if (d.ip_gateway &&& c.sub_mask) = network then
      resolve_output env c d enet_length d.ip_gateway
    else
      (-1, { c with stats := { c.stats with send_bad_network := c.stats.send_bad_network + 1 } })

/-- The condition under which process_output returns 0 (datagram kept
for address resolution): all validations pass, a next hop exists, and
the next hop misses the ARP cache.  Phrased over the three pieces of
port state the decision reads (cache, address, mask). -/
def deferring (cache : ArpCache) (ip_addr sub_mask : Nat) (d : IP_DGRAM) : Bool :=
  let enet_length : Int :=
    toInt16 (ENET_HDR_SIZE + IP_HDR_SIZE + d.opt_length + d.pkt_length)
  let network := ip_addr &&& sub_mask
  if enet_length > (ETH_MAX_LEN : Int) then false
  else if (d.ip_dest &&& compl32 sub_mask) = 0 ∨ (d.ip_dest &&& compl32 sub_mask) = 0xff then false
  else if (d.ip_dest &&& sub_mask) = network then (arp_cache cache d.ip_dest).isNone
  else if (d.ip_gateway &&& sub_mask) = network then (arp_cache cache d.ip_gateway).isNone
  else false

/-- True of an allocation identifier that is not one of the three
buffers process_ip just allocated: IP_discard(dgram, TRUE) releases the
datagram and its sub-buffers, i.e. removes exactly these from the live
set. -/
def not_fresh_alloc (fresh : Nat) : Nat → Bool :=
  fun i => !((i == fresh) || (i == fresh + 1) || (i == fresh + 2))

/-- process_ip (usbsting.c:771): validate the frame and IP header
lengths, allocate the datagram and its option/payload buffers (KRmalloc,
a STinG kernel collaborator: outcomes given by env; allocations are
tracked by fresh identifiers fresh, fresh+1, fresh+2), release
everything on a failed sub-allocation (IP_discard with sub-buffers), and
on success append the new datagram to the receive queue of the port with a
fresh TTL.  Returns 0 if accepted, -1 on error. -/
def process_ip (x : XPort) (env : AllocEnv) (fresh : Nat)
    (ih : IP_HDR) (length : Int) : Int × XPort :=
  if length < (ETH_MIN_LEN : Int) ∨ length > (ETH_MAX_LEN : Int) then (-1, x)
  else if (ih.length : Int) > length then (-1, x)
  else if ih.hd_len * 4 < IP_HDR_SIZE ∨ ih.hd_len * 4 > ih.length then (-1, x)
  else if env.dgramOk = false then (-1, x)
  else
    let x1 := { x with allocs := x.allocs ++ [fresh] }
    let x2 := if env.optionsOk then { x1 with allocs := x1.allocs ++ [fresh + 1] } else x1
    let x3 := if env.pktOk then { x2 with allocs := x2.allocs ++ [fresh + 2] } else x2
    if env.optionsOk = false ∨ env.pktOk = false then
      (-1, { x3 with allocs := x3.allocs.filter (not_fresh_alloc fresh) })
    else
      let dg : IP_DGRAM :=
        { ip_dest := ih.ip_dest, ip_gateway := 0
          opt_length := ih.hd_len * 4 - IP_HDR_SIZE
          pkt_length := ih.length - ih.hd_len * 4
          expired := false, id := fresh }
      (0, { x3 with recv_q := queue_dgram x3.recv_q dg })

/-- The deferred-queue drain loop of process_arp (usbsting.c:877-906):
while dequeue_dgram yields a datagram (expired entries being released as
it scans - flattened here to one queue entry per step), run it through
process_output; 0 requeues it onto the temporary queue arptemp, -1
discards it as dropped, a positive length discards it as sent.  When the
queue is exhausted the temporary queue is the result. -/
def arp_drain (env : Nat → Bool) : Ctx → List IP_DGRAM → List IP_DGRAM → DrainResult
  | c, [], temp => ⟨c, temp, []⟩
  | c, d :: rest, temp =>
    if d.expired then
      let out := arp_drain env c rest temp
      ⟨out.ctx, out.arpwait, d :: out.released⟩
    else
      let c1 := { c with stats :=
        { c.stats with arp_wait_dequeued := c.stats.arp_wait_dequeued + 1 } }
      let res := process_output env c1 d
      if res.1 = 0 then
        let c2 := { res.2 with stats :=
          { res.2.stats with arp_wait_requeued := res.2.stats.arp_wait_requeued + 1 } }
        arp_drain env c2 rest (queue_dgram temp d)
      else if res.1 = -1 then
        let c2 := { res.2 with stat_dropped := res.2.stat_dropped + 1 }
        let out := arp_drain env c2 rest temp
        ⟨out.ctx, out.arpwait, d :: out.released⟩
      else
        let c2 := { res.2 with stat_sd_data := res.2.stat_sd_data + res.1.toNat }
        let out := arp_drain env c2 rest temp
        ⟨out.ctx, out.arpwait, d :: out.released⟩

/-- process_arp (usbsting.c:818): reject packets that are not
Ethernet/IPv4 ARP, reject opcodes other than request and answer; enter
the sender into the cache (overwriting in place on a hit); if the packet
is addressed to this port, answer a request with a reply built in the
shared template, or count an answer; finally drain the arpwait queue
through process_output, re-queueing still-unresolved entries onto a
temporary queue which becomes the new arpwait.  Returns 0 for every
structurally valid packet, -1 otherwise. -/
def process_arp (env : Nat → Bool) (c : Ctx) (arpwait : List IP_DGRAM) (a : ARP) : ArpResult :=
  if a.hardware_space ≠ ARP_HARD_ETHER ∨ a.hardware_len ≠ ETH_ALEN ∨
      a.protocol_space ≠ ENET_TYPE_IP ∨ a.protocol_len ≠ 4 then
    ⟨-1, { c with stats := { c.stats with arp_input_errors := c.stats.arp_input_errors + 1 } },
      arpwait, []⟩
  else if a.op_code ≠ ARP_OP_REQ ∧ a.op_code ≠ ARP_OP_ANS then
    ⟨-1, { c with stats := { c.stats with arp_opcode_errors := c.stats.arp_opcode_errors + 1 } },
      arpwait, []⟩
  else
    let c1 :=
      match arp_cache c.cache a.src_ip with
      | none => { c with cache := arp_enter c.cache a.src_ip a.src_ether }
      | some _ => { c with cache := arp_update c.cache a.src_ip a.src_ether }
    let c2 :=
      if a.dest_ip = c1.ip_addr then
        if a.op_code = ARP_OP_REQ then
          let c3 := { c1 with
            stats := { c1.stats with
              arp_requests_received := c1.stats.arp_requests_received + 1 }
            tmpl := { ethDest := a.src_ether, opCode := ARP_OP_ANS
                      destEther := a.src_ether, destIp := a.src_ip } }
          (send_arp env c3).2
        else { c1 with stats :=
          { c1.stats with arp_answers_received := c1.stats.arp_answers_received + 1 } }
      else c1
    let out := arp_drain env c2 arpwait []
    ⟨0, out.ctx, out.arpwait, out.released⟩

/-- The send-queue loop of send_dgrams (usbsting.c:491-514): while
dequeue_dgram yields a datagram (expired entries being released as it
scans - flattened here to one queue entry per step), run it through
process_output; 0 queues it onto the arpwait queue, -1 discards it as
dropped, a positive length discards it as sent. -/
def send_loop (env : Nat → Bool) : Ctx → List IP_DGRAM → List IP_DGRAM → DrainResult
  | c, [], wait => ⟨c, wait, []⟩
  | c, d :: rest, wait =>
    if d.expired then
      let out := send_loop env c rest wait
      ⟨out.ctx, out.arpwait, d :: out.released⟩
    else
      let c1 := { c with stats :=
        { c.stats with send_dequeued := c.stats.send_dequeued + 1 } }
      let res := process_output env c1 d
      if res.1 = 0 then
        let c2 := { res.2 with stats :=
          { res.2.stats with arp_wait_queued := res.2.stats.arp_wait_queued + 1 } }
        send_loop env c2 rest (queue_dgram wait d)
      else if res.1 = -1 then
        let c2 := { res.2 with stat_dropped := res.2.stat_dropped + 1 }
        let out := send_loop env c2 rest wait
        ⟨out.ctx, out.arpwait, d :: out.released⟩
      else
        let c2 := { res.2 with stat_sd_data := res.2.stat_sd_data + res.1.toNat }
        let out := send_loop env c2 rest wait
        ⟨out.ctx, out.arpwait, d :: out.released⟩

/-- send_dgrams (usbsting.c:474): nothing happens unless the port is
active and has a send queue; otherwise the whole send queue is processed
by the loop above, deferred datagrams ending up on arpwait and the rest
released. -/
def send_dgrams (env : Nat → Bool) (x : XPort) : XPort :=
  if x.active = false then x
  else if x.send_q = [] then x
  else
    let out := send_loop env x.ctx x.send_q x.arpwait
    { x with
      ctx := out.ctx
      send_q := []
      arpwait := out.arpwait
      released := x.released ++ out.released }


/-- The configuration slice of the shared state that queue processing
never changes: port addresses, the cache, and the two ARP reception
counters. -/
def Ctx.core (c : Ctx) : ArpCache × Nat × Nat × Nat × Nat × Nat :=
  (c.cache, c.ip_addr, c.sub_mask, c.macaddr,
   c.stats.arp_answers_received, c.stats.arp_requests_received)

theorem write_device_core (env : Nat → Bool) (c : Ctx) (f : Frame) :
    ((write_device env c f).2).core = c.core := by
  unfold write_device
  split <;> rfl

theorem write_device_rc (env : Nat → Bool) (c : Ctx) (f : Frame) :
    (write_device env c f).1 = 0 ∨ (write_device env c f).1 = -1 := by
  unfold write_device
  split
  · exact Or.inl rfl
  · exact Or.inr rfl

theorem send_arp_core (env : Nat → Bool) (c : Ctx) :
    ((send_arp env c).2).core = c.core := by
  unfold send_arp write_device
  dsimp only
  split <;> rfl

theorem resolve_output_core (env : Nat → Bool) (c : Ctx) (d : IP_DGRAM)
    (el : Int) (ipa : Nat) :
    ((resolve_output env c d el ipa).2).core = c.core := by
  unfold resolve_output send_arp write_device
  cases h : arp_cache c.cache ipa <;> simp only [h] <;> split <;> rfl

theorem process_output_core (env : Nat → Bool) (c : Ctx) (d : IP_DGRAM) :
    ((process_output env c d).2).core = c.core := by
  unfold process_output
  dsimp only
  split
  · rfl
  · split
    · rfl
    · split
      · rw [resolve_output_core]
      · split
        · rw [resolve_output_core]
        · rfl

theorem process_output_cache (env : Nat → Bool) (c : Ctx) (d : IP_DGRAM) :
    ((process_output env c d).2).cache = c.cache :=
  congrArg (fun t => t.1) (process_output_core env c d)

theorem process_output_ip_addr (env : Nat → Bool) (c : Ctx) (d : IP_DGRAM) :
    ((process_output env c d).2).ip_addr = c.ip_addr :=
  congrArg (fun t => t.2.1) (process_output_core env c d)

theorem process_output_sub_mask (env : Nat → Bool) (c : Ctx) (d : IP_DGRAM) :
    ((process_output env c d).2).sub_mask = c.sub_mask :=
  congrArg (fun t => t.2.2.1) (process_output_core env c d)

theorem process_output_macaddr (env : Nat → Bool) (c : Ctx) (d : IP_DGRAM) :
    ((process_output env c d).2).macaddr = c.macaddr :=
  congrArg (fun t => t.2.2.2.1) (process_output_core env c d)

theorem process_output_answers (env : Nat → Bool) (c : Ctx) (d : IP_DGRAM) :
    ((process_output env c d).2).stats.arp_answers_received = c.stats.arp_answers_received :=
  congrArg (fun t => t.2.2.2.2.1) (process_output_core env c d)

theorem process_output_requests (env : Nat → Bool) (c : Ctx) (d : IP_DGRAM) :
    ((process_output env c d).2).stats.arp_requests_received = c.stats.arp_requests_received :=
  congrArg (fun t => t.2.2.2.2.2) (process_output_core env c d)

theorem toInt16_pos_ne_zero (n : Nat) (h0 : 0 < n) (h : n < 65536) : toInt16 n ≠ 0 := by
  unfold toInt16
  rw [Nat.mod_eq_of_lt h]
  split <;> omega

theorem resolve_output_rc0 (env : Nat → Bool) (c : Ctx) (d : IP_DGRAM)
    (el : Int) (ipa : Nat)
    (hne : toInt16 (IP_HDR_SIZE + d.opt_length + d.pkt_length) ≠ 0) :
    ((resolve_output env c d el ipa).1 = 0) ↔ (arp_cache c.cache ipa).isNone = true := by
  unfold resolve_output
  cases h : arp_cache c.cache ipa <;> simp only [h]
  · simp
  · split <;> split <;> simp [hne]

theorem process_output_rc0 (env : Nat → Bool) (c : Ctx) (d : IP_DGRAM)
    (h : ENET_HDR_SIZE + IP_HDR_SIZE + d.opt_length + d.pkt_length < 65536) :
    ((process_output env c d).1 = 0) ↔ deferring c.cache c.ip_addr c.sub_mask d = true := by
  have hne : toInt16 (IP_HDR_SIZE + d.opt_length + d.pkt_length) ≠ 0 := by
    have e1 : ENET_HDR_SIZE = 14 := rfl
    have e2 : IP_HDR_SIZE = 20 := rfl
    rw [e1, e2] at h
    rw [e2]
    apply toInt16_pos_ne_zero <;> omega
  unfold process_output deferring
  dsimp only
  by_cases h1 : toInt16 (ENET_HDR_SIZE + IP_HDR_SIZE + d.opt_length + d.pkt_length) > (ETH_MAX_LEN : Int)
  · simp only [if_pos h1]
    simp
  · by_cases h2 : (d.ip_dest &&& compl32 c.sub_mask) = 0 ∨ (d.ip_dest &&& compl32 c.sub_mask) = 0xff
    · simp only [if_neg h1, if_pos h2]
      simp
    · by_cases h3 : (d.ip_dest &&& c.sub_mask) = (c.ip_addr &&& c.sub_mask)
      · simp only [if_neg h1, if_neg h2, if_pos h3]
        exact resolve_output_rc0 env c d _ _ hne
      · by_cases h4 : (d.ip_gateway &&& c.sub_mask) = (c.ip_addr &&& c.sub_mask)
        · simp only [if_neg h1, if_neg h2, if_neg h3, if_pos h4]
          exact resolve_output_rc0 env c d _ _ hne
        · simp only [if_neg h1, if_neg h2, if_neg h3, if_neg h4]
          simp

theorem write_device_txlog (env : Nat → Bool) (c : Ctx) (f : Frame) :
    (write_device env c f).2.txlog = c.txlog ++ [f] := by
  unfold write_device
  split <;> rfl

theorem send_arp_txlog (env : Nat → Bool) (c : Ctx) :
    (send_arp env c).2.txlog = c.txlog ++
      [Frame.arpf c.tmpl.ethDest c.macaddr c.tmpl.opCode c.macaddr c.ip_addr
        c.tmpl.destEther c.tmpl.destIp] := by
  unfold send_arp write_device
  dsimp only
  split <;> rfl

theorem isReply_filter_resolve (env : Nat → Bool) (c : Ctx) (d : IP_DGRAM)
    (el : Int) (ipa : Nat) :
    ((resolve_output env c d el ipa).2).txlog.filter isReply = c.txlog.filter isReply := by
  unfold resolve_output
  cases h : arp_cache c.cache ipa <;> simp only [h]
  · rw [send_arp_txlog]
    simp [List.filter_append, isReply]
    decide
  · split <;> split <;> simp [write_device_txlog, List.filter_append, isReply]

theorem isReply_filter_process_output (env : Nat → Bool) (c : Ctx) (d : IP_DGRAM) :
    ((process_output env c d).2).txlog.filter isReply = c.txlog.filter isReply := by
  unfold process_output
  dsimp only
  split
  · rfl
  · split
    · rfl
    · split
      · rw [isReply_filter_resolve]
      · split
        · rw [isReply_filter_resolve]
        · rfl

theorem arp_drain_rfilter (env : Nat → Bool) (q : List IP_DGRAM) :
    ∀ (temp : List IP_DGRAM) (c : Ctx),
    ((arp_drain env c q temp).ctx).txlog.filter isReply = c.txlog.filter isReply := by
  induction q with
  | nil => intro temp c; rfl
  | cons d rest ih =>
    intro temp c
    unfold arp_drain
    dsimp only
    split
    · exact ih temp c
    · split
      · rw [ih]
        rw [isReply_filter_process_output]
      · split
        · rw [ih]
          rw [isReply_filter_process_output]
        · rw [ih]
          rw [isReply_filter_process_output]

theorem arp_drain_core (env : Nat → Bool) (q : List IP_DGRAM) :
    ∀ (temp : List IP_DGRAM) (c : Ctx),
    ((arp_drain env c q temp).ctx).core = c.core := by
  induction q with
  | nil => intro temp c; rfl
  | cons d rest ih =>
    intro temp c
    unfold arp_drain
    dsimp only
    split
    · exact ih temp c
    · split
      · rw [ih]
        simp only [Ctx.core, process_output_cache, process_output_ip_addr,
          process_output_sub_mask, process_output_macaddr, process_output_answers,
          process_output_requests]
      · split
        · rw [ih]
          simp only [Ctx.core, process_output_cache, process_output_ip_addr,
            process_output_sub_mask, process_output_macaddr, process_output_answers,
            process_output_requests]
        · rw [ih]
          simp only [Ctx.core, process_output_cache, process_output_ip_addr,
            process_output_sub_mask, process_output_macaddr, process_output_answers,
            process_output_requests]

theorem arp_drain_filter (env : Nat → Bool) (q : List IP_DGRAM) :
    ∀ (temp : List IP_DGRAM) (c : Ctx),
    (∀ e ∈ q, ENET_HDR_SIZE + IP_HDR_SIZE + e.opt_length + e.pkt_length < 65536) →
    (arp_drain env c q temp).arpwait
      = temp ++ q.filter (fun e => !e.expired && deferring c.cache c.ip_addr c.sub_mask e) ∧
    (arp_drain env c q temp).released
      = q.filter (fun e => e.expired || !(deferring c.cache c.ip_addr c.sub_mask e)) := by
  induction q with
  | nil =>
    intro temp c h
    constructor <;> simp [arp_drain]
  | cons d rest ih =>
    intro temp c h
    have hd := h d (List.mem_cons_self d rest)
    have hrest : ∀ e ∈ rest,
        ENET_HDR_SIZE + IP_HDR_SIZE + e.opt_length + e.pkt_length < 65536 :=
      fun e he => h e (List.mem_cons_of_mem d he)
    unfold arp_drain
    dsimp only
    by_cases hexp : d.expired = true
    · rw [if_pos hexp]
      obtain ⟨h1, h2⟩ := ih temp c hrest
      constructor
      · dsimp only
        rw [h1, List.filter_cons]
        simp [hexp]
      · dsimp only
        rw [h2, List.filter_cons]
        simp [hexp]
    · rw [if_neg hexp]
      have hb : d.expired = false := by
        revert hexp; cases d.expired <;> simp
      split
      next hrc =>
        have hdef : deferring c.cache c.ip_addr c.sub_mask d = true := by
          have h0 := (process_output_rc0 env _ d hd).mp hrc
          simpa using h0
        obtain ⟨h1, h2⟩ := ih (queue_dgram temp d) _ hrest
        constructor
        · rw [h1]
          simp only [process_output_cache, process_output_ip_addr, process_output_sub_mask]
          rw [List.filter_cons]
          simp [hb, hdef, queue_dgram]
        · rw [h2]
          simp only [process_output_cache, process_output_ip_addr, process_output_sub_mask]
          rw [List.filter_cons]
          simp [hb, hdef]
      next hrc =>
        have hdef : deferring c.cache c.ip_addr c.sub_mask d = false := by
          by_contra hcon
          have ht : deferring c.cache c.ip_addr c.sub_mask d = true := by
            revert hcon; cases (deferring c.cache c.ip_addr c.sub_mask d) <;> simp
          exact hrc ((process_output_rc0 env _ d hd).mpr (by simpa using ht))
        split
        · obtain ⟨h1, h2⟩ := ih temp _ hrest
          constructor
          · dsimp only
            rw [h1]
            simp only [process_output_cache, process_output_ip_addr, process_output_sub_mask]
            rw [List.filter_cons]
            simp [hb, hdef]
          · dsimp only
            rw [h2]
            simp only [process_output_cache, process_output_ip_addr, process_output_sub_mask]
            rw [List.filter_cons]
            simp [hb, hdef]
        · obtain ⟨h1, h2⟩ := ih temp _ hrest
          constructor
          · dsimp only
            rw [h1]
            simp only [process_output_cache, process_output_ip_addr, process_output_sub_mask]
            rw [List.filter_cons]
            simp [hb, hdef]
          · dsimp only
            rw [h2]
            simp only [process_output_cache, process_output_ip_addr, process_output_sub_mask]
            rw [List.filter_cons]
            simp [hb, hdef]

theorem dequeue_dgram_none (q : List IP_DGRAM) :
    (dequeue_dgram q).1 = none ↔ ∀ d ∈ q, d.expired = true := by
  induction q with
  | nil => simp [dequeue_dgram]
  | cons d rest ih =>
    unfold dequeue_dgram
    by_cases hexp : d.expired = true
    · rw [if_pos hexp]
      dsimp only
      rw [ih]
      simp [hexp]
    · rw [if_neg hexp]
      simp [hexp]

theorem dequeue_dgram_none_state (q : List IP_DGRAM) :
    (dequeue_dgram q).1 = none → (dequeue_dgram q).2.1 = [] ∧ (dequeue_dgram q).2.2 = q := by
  induction q with
  | nil => intro _; exact ⟨rfl, rfl⟩
  | cons d rest ih =>
    unfold dequeue_dgram
    by_cases hexp : d.expired = true
    · rw [if_pos hexp]
      dsimp only
      intro h
      obtain ⟨h1, h2⟩ := ih h
      exact ⟨h1, by rw [h2]⟩
    · rw [if_neg hexp]
      intro h
      simp at h

theorem dequeue_dgram_some (q : List IP_DGRAM) (d : IP_DGRAM) :
    (dequeue_dgram q).1 = some d →
    d.expired = false ∧ q = (dequeue_dgram q).2.2 ++ d :: (dequeue_dgram q).2.1 ∧
    ∀ e ∈ (dequeue_dgram q).2.2, e.expired = true := by
  induction q with
  | nil => intro h; simp [dequeue_dgram] at h
  | cons a rest ih =>
    unfold dequeue_dgram
    by_cases hexp : a.expired = true
    · rw [if_pos hexp]
      dsimp only
      intro h
      obtain ⟨h1, h2, h3⟩ := ih h
      refine ⟨h1, ?_, ?_⟩
      · rw [List.cons_append, ← h2]
      · intro e he
        rcases List.mem_cons.mp he with rfl | hm
        · exact hexp
        · exact h3 e hm
    · rw [if_neg hexp]
      dsimp only
      intro h
      have hd := Option.some.inj h
      subst hd
      have hb : a.expired = false := by
        revert hexp; cases a.expired <;> simp
      exact ⟨hb, rfl, by simp⟩

theorem arp_cache_update (cch : ArpCache) (ip hw w : Nat)
    (h : arp_cache cch ip = some w) :
    arp_cache (arp_update cch ip hw) ip = some hw := by
  induction cch with
  | nil => simp [arp_cache] at h
  | cons s rest ih =>
    cases s with
    | none =>
      simp only [arp_update, arp_cache] at h ⊢
      exact ih h
    | some e =>
      by_cases he : e.1 = ip
      · simp [arp_update, arp_cache, he]
      · simp only [arp_update, arp_cache, if_neg he] at h ⊢
        exact ih h

theorem arp_cache_enter_free (cch : ArpCache) (ip hw : Nat)
    (hfree : cch.any Option.isNone = true)
    (hmiss : arp_cache cch ip = none) :
    arp_cache (enter_free cch ip hw) ip = some hw := by
  induction cch with
  | nil => simp at hfree
  | cons s rest ih =>
    cases s with
    | none => simp [enter_free, arp_cache]
    | some e =>
      have he : e.1 ≠ ip := by
        intro hcon
        simp [arp_cache, hcon] at hmiss
      simp only [arp_cache, if_neg he] at hmiss
      simp only [enter_free, arp_cache, if_neg he]
      exact ih (by simpa using hfree) hmiss

theorem arp_cache_enter (cch : ArpCache) (ip hw : Nat)
    (hmiss : arp_cache cch ip = none) (hne : cch ≠ []) :
    arp_cache (arp_enter cch ip hw) ip = some hw := by
  unfold arp_enter
  split
  · exact arp_cache_enter_free cch ip hw (by assumption) hmiss
  · cases cch with
    | nil => exact absurd rfl hne
    | cons s rest => simp [arp_cache]

theorem arp_update_length (cch : ArpCache) (ip hw : Nat) :
    (arp_update cch ip hw).length = cch.length := by
  induction cch with
  | nil => rfl
  | cons s rest ih =>
    cases s with
    | none => simp [arp_update, ih]
    | some e =>
      by_cases he : e.1 = ip <;> simp [arp_update, he, ih]

theorem arp_update_occupied (cch : ArpCache) (ip hw : Nat) :
    occupied (arp_update cch ip hw) = occupied cch := by
  induction cch with
  | nil => rfl
  | cons s rest ih =>
    unfold occupied at ih ⊢
    cases s with
    | none => simpa [arp_update, List.filter_cons] using ih
    | some e =>
      by_cases he : e.1 = ip <;> simp [arp_update, he, List.filter_cons, ih]

theorem arp_update_slot_pos (cch : ArpCache) (ip hw : Nat) :
    slot_pos (arp_update cch ip hw) ip = slot_pos cch ip := by
  induction cch with
  | nil => rfl
  | cons s rest ih =>
    cases s with
    | none => simp [arp_update, slot_pos, ih]
    | some e =>
      by_cases he : e.1 = ip <;> simp [arp_update, slot_pos, he, ih]

theorem send_arp_cache (env : Nat → Bool) (c : Ctx) :
    ((send_arp env c).2).cache = c.cache :=
  congrArg (fun t => t.1) (send_arp_core env c)

theorem send_arp_answers (env : Nat → Bool) (c : Ctx) :
    ((send_arp env c).2).stats.arp_answers_received = c.stats.arp_answers_received :=
  congrArg (fun t => t.2.2.2.2.1) (send_arp_core env c)

theorem arp_drain_cache (env : Nat → Bool) (q temp : List IP_DGRAM) (c : Ctx) :
    ((arp_drain env c q temp).ctx).cache = c.cache :=
  congrArg (fun t => t.1) (arp_drain_core env q temp c)

theorem arp_drain_answers (env : Nat → Bool) (q temp : List IP_DGRAM) (c : Ctx) :
    ((arp_drain env c q temp).ctx).stats.arp_answers_received
      = c.stats.arp_answers_received :=
  congrArg (fun t => t.2.2.2.2.1) (arp_drain_core env q temp c)

/-- Structural validity of an inbound ARP packet, as process_arp checks
it: Ethernet hardware space and length, IPv4 protocol space and length,
and a request or answer opcode. -/
def structValid (a : ARP) : Bool :=
  decide ((a.hardware_space = ARP_HARD_ETHER ∧ a.hardware_len = ETH_ALEN ∧
    a.protocol_space = ENET_TYPE_IP ∧ a.protocol_len = 4) ∧
    (a.op_code = ARP_OP_REQ ∨ a.op_code = ARP_OP_ANS))

theorem structValid_guards (a : ARP) (hv : structValid a = true) :
    ¬(a.hardware_space ≠ ARP_HARD_ETHER ∨ a.hardware_len ≠ ETH_ALEN ∨
        a.protocol_space ≠ ENET_TYPE_IP ∨ a.protocol_len ≠ 4) ∧
    ¬(a.op_code ≠ ARP_OP_REQ ∧ a.op_code ≠ ARP_OP_ANS) := by
  simp only [structValid, decide_eq_true_eq] at hv
  obtain ⟨⟨e1, e2, e3, e4⟩, e5⟩ := hv
  constructor
  · push_neg
    exact ⟨e1, e2, e3, e4⟩
  · rcases e5 with h | h
    · intro hcon; exact hcon.1 h
    · intro hcon; exact hcon.2 h

theorem process_arp_cache_hit (env : Nat → Bool) (c : Ctx) (q : List IP_DGRAM)
    (a : ARP) (w : Nat) (hv : structValid a = true)
    (hh : arp_cache c.cache a.src_ip = some w) :
    ((process_arp env c q a).ctx).cache = arp_update c.cache a.src_ip a.src_ether := by
  obtain ⟨hg1, hg2⟩ := structValid_guards a hv
  unfold process_arp
  rw [if_neg hg1, if_neg hg2]
  simp only [hh]
  rw [arp_drain_cache]
  split
  · split
    · rw [send_arp_cache]
    · rfl
  · rfl

theorem process_arp_cache_miss (env : Nat → Bool) (c : Ctx) (q : List IP_DGRAM)
    (a : ARP) (hv : structValid a = true)
    (hm : arp_cache c.cache a.src_ip = none) :
    ((process_arp env c q a).ctx).cache = arp_enter c.cache a.src_ip a.src_ether := by
  obtain ⟨hg1, hg2⟩ := structValid_guards a hv
  unfold process_arp
  rw [if_neg hg1, if_neg hg2]
  simp only [hm]
  rw [arp_drain_cache]
  split
  · split
    · rw [send_arp_cache]
    · rfl
  · rfl

theorem process_arp_reply_req (env : Nat → Bool) (c : Ctx) (q : List IP_DGRAM)
    (a : ARP) (hv : structValid a = true) (hdst : a.dest_ip = c.ip_addr)
    (hop : a.op_code = ARP_OP_REQ) :
    ((process_arp env c q a).ctx).txlog.filter isReply
      = c.txlog.filter isReply ++
        [Frame.arpf a.src_ether c.macaddr ARP_OP_ANS c.macaddr c.ip_addr
          a.src_ether a.src_ip] := by
  obtain ⟨hg1, hg2⟩ := structValid_guards a hv
  unfold process_arp
  rw [if_neg hg1, if_neg hg2]
  cases hc : arp_cache c.cache a.src_ip <;> simp only [hc] <;>
    (rw [arp_drain_rfilter]
     rw [if_pos hdst, if_pos hop]
     rw [send_arp_txlog]
     simp [List.filter_append, isReply])

theorem process_arp_reply_ans (env : Nat → Bool) (c : Ctx) (q : List IP_DGRAM)
    (a : ARP) (hv : structValid a = true) (hop : a.op_code = ARP_OP_ANS) :
    ((process_arp env c q a).ctx).txlog.filter isReply = c.txlog.filter isReply := by
  obtain ⟨hg1, hg2⟩ := structValid_guards a hv
  have hnreq : ¬(a.op_code = ARP_OP_REQ) := by
    rw [hop]; decide
  unfold process_arp
  rw [if_neg hg1, if_neg hg2]
  cases hc : arp_cache c.cache a.src_ip <;> simp only [hc] <;>
    (rw [arp_drain_rfilter]
     by_cases hdst : a.dest_ip = c.ip_addr
     · rw [if_pos hdst, if_neg hnreq]
     · rw [if_neg hdst])

theorem process_arp_ans_txlog_nil (env : Nat → Bool) (c : Ctx) (a : ARP)
    (hv : structValid a = true) (hop : a.op_code = ARP_OP_ANS) :
    ((process_arp env c [] a).ctx).txlog = c.txlog := by
  obtain ⟨hg1, hg2⟩ := structValid_guards a hv
  have hnreq : ¬(a.op_code = ARP_OP_REQ) := by
    rw [hop]; decide
  unfold process_arp
  rw [if_neg hg1, if_neg hg2]
  cases hc : arp_cache c.cache a.src_ip <;> simp only [hc] <;>
    (unfold arp_drain
     by_cases hdst : a.dest_ip = c.ip_addr
     · rw [if_pos hdst, if_neg hnreq]
     · rw [if_neg hdst])

theorem process_arp_ans_count (env : Nat → Bool) (c : Ctx) (q : List IP_DGRAM)
    (a : ARP) (hv : structValid a = true) (hop : a.op_code = ARP_OP_ANS)
    (hdst : a.dest_ip = c.ip_addr) :
    ((process_arp env c q a).ctx).stats.arp_answers_received
      = c.stats.arp_answers_received + 1 := by
  obtain ⟨hg1, hg2⟩ := structValid_guards a hv
  have hnreq : ¬(a.op_code = ARP_OP_REQ) := by
    rw [hop]; decide
  unfold process_arp
  rw [if_neg hg1, if_neg hg2]
  cases hc : arp_cache c.cache a.src_ip <;> simp only [hc] <;>
    (rw [arp_drain_answers]
     rw [if_pos hdst, if_neg hnreq])

theorem allocs_filter_fresh (l : List Nat) (fresh : Nat) (hf : ∀ i ∈ l, i < fresh) :
    l.filter (not_fresh_alloc fresh) = l := by
  induction l with
  | nil => rfl
  | cons a rest ihl =>
    have ha := hf a (List.mem_cons_self a rest)
    have hr : ∀ i ∈ rest, i < fresh := fun i hi => hf i (List.mem_cons_of_mem a hi)
    have hp : not_fresh_alloc fresh a = true := by
      simp [not_fresh_alloc]
      omega
    rw [List.filter_cons, if_pos hp, ihl hr]

theorem not_fresh_alloc_zero (fresh : Nat) : not_fresh_alloc fresh fresh = false := by
  simp [not_fresh_alloc]

theorem not_fresh_alloc_one (fresh : Nat) : not_fresh_alloc fresh (fresh + 1) = false := by
  simp [not_fresh_alloc]

theorem not_fresh_alloc_two (fresh : Nat) : not_fresh_alloc fresh (fresh + 2) = false := by
  simp [not_fresh_alloc]

/-- Claim C10: every call to send_arp counts exactly one ARP packet
sent and one write attempt, whether or not the transport write
succeeds; on transport failure the error counter is additionally
incremented and the sent-data byte counter of the port is left unchanged,
while on success the byte counter grows by the ARP packet size - so the
ARP-packets-sent statistic counts transmission attempts. -/
theorem c10_send_arp_stats (env : Nat → Bool) (c : Ctx) :
    ((send_arp env c).2).stats.send_arp_packets = c.stats.send_arp_packets + 1 ∧
    ((send_arp env c).2).stats.write_total_packets = c.stats.write_total_packets + 1 ∧
    ((send_arp env c).1 = 0 →
      ((send_arp env c).2).stats.send_arp_packets_err = c.stats.send_arp_packets_err ∧
      ((send_arp env c).2).stat_sd_data = c.stat_sd_data + ARP_PACKET_SIZE) ∧
    ((send_arp env c).1 ≠ 0 →
      ((send_arp env c).2).stats.send_arp_packets_err = c.stats.send_arp_packets_err + 1 ∧
      ((send_arp env c).2).stat_sd_data = c.stat_sd_data) := by
  unfold send_arp write_device
  dsimp only
  split
  · exact ⟨rfl, rfl, fun _ => ⟨rfl, rfl⟩, fun hne => absurd rfl hne⟩
  · refine ⟨rfl, rfl, fun h => ?_, fun _ => ⟨rfl, rfl⟩⟩
    simp at h

/-- Claim C9: process_ip returns -1 exactly when the frame length is
outside [ETH_MIN_LEN, ETH_MAX_LEN], or the IP total-length field
exceeds the physical frame length, or the header-length field times 4
is below the fixed header size or exceeds the IP total length, or one
of the three allocations fails; on every rejection the receive queue is
unchanged and the set of live allocations is exactly what it was (any
partially allocated buffers are released); otherwise it returns 0 and
appends exactly the new datagram to the receive queue. -/
theorem c9_process_ip (x : XPort) (env : AllocEnv) (fresh : Nat)
    (ih : IP_HDR) (length : Int)
    (hfresh : ∀ i ∈ x.allocs, i < fresh) :
    ((process_ip x env fresh ih length).1 = -1 ↔
      (length < (ETH_MIN_LEN : Int) ∨ length > (ETH_MAX_LEN : Int) ∨
       (ih.length : Int) > length ∨
       ih.hd_len * 4 < IP_HDR_SIZE ∨ ih.hd_len * 4 > ih.length ∨
       env.dgramOk = false ∨ env.optionsOk = false ∨ env.pktOk = false)) ∧
    ((process_ip x env fresh ih length).1 = -1 →
      ((process_ip x env fresh ih length).2).recv_q = x.recv_q ∧
      ((process_ip x env fresh ih length).2).allocs = x.allocs) ∧
    ((process_ip x env fresh ih length).1 ≠ -1 →
      (process_ip x env fresh ih length).1 = 0 ∧
      ((process_ip x env fresh ih length).2).recv_q
        = x.recv_q ++
          [{ ip_dest := ih.ip_dest
             ip_gateway := 0
             opt_length := ih.hd_len * 4 - IP_HDR_SIZE
             pkt_length := ih.length - ih.hd_len * 4
             expired := false
             id := fresh }]) := by
  unfold process_ip
  by_cases h1 : length < (ETH_MIN_LEN : Int) ∨ length > (ETH_MAX_LEN : Int)
  · rw [if_pos h1]
    refine ⟨⟨fun _ => ?_, fun _ => rfl⟩, fun _ => ⟨rfl, rfl⟩, fun hne => absurd rfl hne⟩
    tauto
  · rw [if_neg h1]
    by_cases h2 : (ih.length : Int) > length
    · rw [if_pos h2]
      refine ⟨⟨fun _ => ?_, fun _ => rfl⟩, fun _ => ⟨rfl, rfl⟩, fun hne => absurd rfl hne⟩
      tauto
    · rw [if_neg h2]
      by_cases h3 : ih.hd_len * 4 < IP_HDR_SIZE ∨ ih.hd_len * 4 > ih.length
      · rw [if_pos h3]
        refine ⟨⟨fun _ => ?_, fun _ => rfl⟩, fun _ => ⟨rfl, rfl⟩, fun hne => absurd rfl hne⟩
        tauto
      · rw [if_neg h3]
        by_cases h4 : env.dgramOk = false
        · rw [if_pos h4]
          refine ⟨⟨fun _ => ?_, fun _ => rfl⟩, fun _ => ⟨rfl, rfl⟩, fun hne => absurd rfl hne⟩
          tauto
        · rw [if_neg h4]
          dsimp only
          by_cases h5 : env.optionsOk = false ∨ env.pktOk = false
          · rw [if_pos h5]
            refine ⟨⟨fun _ => ?_, fun _ => rfl⟩, fun _ => ⟨?_, ?_⟩, fun hne => absurd rfl hne⟩
            · tauto
            · rcases Bool.eq_false_or_eq_true env.optionsOk with ho | ho <;>
                rcases Bool.eq_false_or_eq_true env.pktOk with hpk | hpk <;>
                  simp [ho, hpk]
            · rcases Bool.eq_false_or_eq_true env.optionsOk with ho | ho <;>
                rcases Bool.eq_false_or_eq_true env.pktOk with hpk | hpk <;>
                  simp [ho, hpk, List.filter_append,
                    allocs_filter_fresh x.allocs fresh hfresh, not_fresh_alloc_zero,
                    not_fresh_alloc_one, not_fresh_alloc_two]
          · rw [if_neg h5]
            push_neg at h5
            have ho : env.optionsOk = true := by
              rcases Bool.eq_false_or_eq_true env.optionsOk with h | h
              · exact h
              · exact absurd h h5.1
            have hpk : env.pktOk = true := by
              rcases Bool.eq_false_or_eq_true env.pktOk with h | h
              · exact h
              · exact absurd h h5.2
            push_neg at h1 h3
            refine ⟨⟨fun h0 => ?_, fun hr => ?_⟩, fun h0 => ?_, fun _ => ⟨rfl, ?_⟩⟩
            · simp at h0
            · exfalso
              rcases hr with h | h | h | h | h | h | h | h
              · exact absurd h (by omega)
              · exact absurd h (by omega)
              · exact h2 h
              · omega
              · omega
              · exact h4 h
              · rw [ho] at h; simp at h
              · rw [hpk] at h; simp at h
            · simp at h0
            · simp [ho, hpk, queue_dgram]

theorem resolve_output_bad_host (env : Nat → Bool) (c : Ctx) (d : IP_DGRAM)
    (el : Int) (ipa : Nat) :
    ((resolve_output env c d el ipa).2).stats.send_bad_host = c.stats.send_bad_host := by
  unfold resolve_output send_arp write_device
  cases h : arp_cache c.cache ipa <;> simp only [h] <;> split <;> rfl

/-- The installed ARP template before any send: install() clears the
whole packet with memset 0 (the constant fields are then set, the
mutable ones stay 0 until the first use). -/
def tmpl0 : ArpTemplate := { ethDest := 0, opCode := 0, destEther := 0, destIp := 0 }

/-- A transport environment in which every USB send succeeds. -/
def envT : Nat → Bool := fun _ => true

/-- A transport environment in which every USB send fails. -/
def envF : Nat → Bool := fun _ => false

/-- Port state on 192.168.1.1/16 with an empty two-slot cache and
cleared statistics. -/
def c1ctx : Ctx :=
  { ip_addr := 0xC0A80001
    sub_mask := 0xFFFF0000
    macaddr := 0x0123456789AB
    cache := [none, none]
    stats := stats0
    stat_sd_data := 0
    stat_dropped := 0
    tmpl := tmpl0
    txlog := [] }

/-- A datagram to 192.168.255.255: under the /16 mask its host portion
is 0xFFFF, i.e. all-ones. -/
def c1dgram : IP_DGRAM :=
  { ip_dest := 0xC0A8FFFF
    ip_gateway := 0
    opt_length := 0
    pkt_length := 100
    expired := false
    id := 1 }

/-- A datagram to 192.168.0.0: under the /16 mask its host portion is
all-zero. -/
def c1zero : IP_DGRAM :=
  { ip_dest := 0xC0A80000
    ip_gateway := 0
    opt_length := 0
    pkt_length := 100
    expired := false
    id := 2 }

/-- Claim C1 (amended): once the frame-length check has passed,
process_output rejects with the bad-host counter incremented exactly
when the host bits of the destination (ip_dest AND NOT sub_mask) equal 0 or
the literal byte value 0xff - for any subnet mask and any cache
contents; when the host bits are neither, the bad-host counter is not
touched.  (The all-ones host portion is caught only when the mask is a
/24, because the code compares against the constant 0xff, not against
the complement of the mask - see the counterexample.) -/
theorem c1_bad_host_amended (env : Nat → Bool) (c : Ctx) (d : IP_DGRAM)
    (hlen : ¬(toInt16 (ENET_HDR_SIZE + IP_HDR_SIZE + d.opt_length + d.pkt_length)
      > (ETH_MAX_LEN : Int))) :
    (((d.ip_dest &&& compl32 c.sub_mask) = 0 ∨ (d.ip_dest &&& compl32 c.sub_mask) = 0xff) →
      (process_output env c d).1 = -1 ∧
      ((process_output env c d).2).stats.send_bad_host = c.stats.send_bad_host + 1) ∧
    (¬((d.ip_dest &&& compl32 c.sub_mask) = 0 ∨ (d.ip_dest &&& compl32 c.sub_mask) = 0xff) →
      ((process_output env c d).2).stats.send_bad_host = c.stats.send_bad_host) := by
  unfold process_output
  dsimp only
  rw [if_neg hlen]
  constructor
  · intro hh
    rw [if_pos hh]
    exact ⟨rfl, rfl⟩
  · intro hh
    rw [if_neg hh]
    split
    · rw [resolve_output_bad_host]
    · split
      · rw [resolve_output_bad_host]
      · rfl

/-- Claim C1 witness: a destination with all-zero host bits is rejected
and counted. -/
theorem c1_bad_host_witness :
    (process_output envT c1ctx c1zero).1 = -1 ∧
    ((process_output envT c1ctx c1zero).2).stats.send_bad_host
      = c1ctx.stats.send_bad_host + 1 :=
  (c1_bad_host_amended envT c1ctx c1zero (by decide)).1 (by decide)

/-- Claim C1 counterexample: under the /16 mask 0xFFFF0000 a destination
whose host portion is all-ones (0xFFFF) is NOT rejected: process_output
returns 0 (deferred for ARP) and the bad-host counter stays 0, because
the code compares the host bits against the literal 0xff, which only
matches the all-ones host of a /24 mask. -/
theorem c1_bad_host_counterexample :
    (c1dgram.ip_dest &&& compl32 c1ctx.sub_mask) = 0xFFFF ∧
    compl32 c1ctx.sub_mask = 0xFFFF ∧
    (process_output envT c1ctx c1dgram).1 = 0 ∧
    ((process_output envT c1ctx c1dgram).2).stats.send_bad_host = 0 := by
  decide

/-- Port state on 192.168.1.1/24 with an empty two-slot cache and
cleared statistics. -/
def c2ctx : Ctx :=
  { ip_addr := 0xC0A80101
    sub_mask := 0xFFFFFF00
    macaddr := 0x0123456789AB
    cache := [none, none]
    stats := stats0
    stat_sd_data := 0
    stat_dropped := 0
    tmpl := tmpl0
    txlog := [] }

/-- An on-subnet datagram whose options plus payload make the true
frame length 14 + 20 + 32751 + 32751 = 65536 bytes - far beyond the
maximum Ethernet frame, and exactly 2^16 so the uint16 truncation wraps
the computed length to 0. -/
def c2dgram : IP_DGRAM :=
  { ip_dest := 0xC0A80132
    ip_gateway := 0
    opt_length := 32751
    pkt_length := 32751
    expired := false
    id := 3 }

/-- An active port whose send queue holds only the oversized datagram. -/
def c2port : XPort :=
  { ctx := c2ctx
    active := true
    interface_up := true
    send_q := [c2dgram]
    recv_q := []
    arpwait := []
    released := []
    allocs := [] }

/-- Claim C2 (code bug): the length check computes
(uint16)(sizeof(ENET_HDR) + sizeof(IP_HDR) + opt_length + pkt_length)
into an int16, so a true total of 65536 bytes wraps to 0, passes the
check, and the datagram is NOT rejected: with an empty cache
process_output returns 0 (deferred), the bad-length counter stays 0,
and send_dgrams enqueues the oversized datagram on the arpwait queue
instead of releasing it. -/
theorem c2_overflow_eval :
    ENET_HDR_SIZE + IP_HDR_SIZE + c2dgram.opt_length + c2dgram.pkt_length = 65536 ∧
    toInt16 (ENET_HDR_SIZE + IP_HDR_SIZE + c2dgram.opt_length + c2dgram.pkt_length) = 0 ∧
    (process_output envT c2ctx c2dgram).1 = 0 ∧
    ((process_output envT c2ctx c2dgram).2).stats.send_bad_length = 0 ∧
    (send_dgrams envT c2port).arpwait = [c2dgram] ∧
    (send_dgrams envT c2port).released = [] ∧
    ((send_dgrams envT c2port).ctx).stats.send_bad_length = 0 := by
  decide

/-- An active port with a non-empty deferred (arpwait) queue, used to
show the up/down transition leaves arpwait untouched. -/
def c3port : XPort :=
  { ctx := c2ctx
    active := true
    interface_up := true
    send_q := [c1zero]
    recv_q := [c1dgram]
    arpwait := [c2dgram]
    released := []
    allocs := [] }

/-- Claim C3 (amended): set_device_state with state 0 reports TRUE,
clears interface_up, synchronously flushes the send and the receive
queue with every entry of both released - but it does NOT drain the
deferred-send (arpwait) queue, which is left exactly as it was. -/
theorem c3_down_flush_amended (x : XPort) :
    (set_device_state x 0).1 = true ∧
    ((set_device_state x 0).2).interface_up = false ∧
    ((set_device_state x 0).2).send_q = [] ∧
    ((set_device_state x 0).2).recv_q = [] ∧
    ((set_device_state x 0).2).released = x.released ++ x.send_q ++ x.recv_q ∧
    ((set_device_state x 0).2).arpwait = x.arpwait := by
  unfold set_device_state empty_queue
  rw [if_neg (by decide : ¬((0 : Int) ≠ 0))]
  refine ⟨rfl, rfl, rfl, rfl, ?_, rfl⟩
  simp [List.append_assoc]

/-- Claim C3 counterexample: after a down transition the arpwait entry
is still queued and was not released, refuting the part of the claim
that says the deferred-send queue is drained on shutdown. -/
theorem c3_down_flush_counterexample :
    ((set_device_state c3port 0).2).arpwait = [c2dgram] ∧
    c2dgram ∉ ((set_device_state c3port 0).2).released ∧
    (set_device_state c3port 0).1 = true := by
  decide

/-- Claim C4: dequeue_dgram pops entries from the head, releasing each
popped expired entry, until it finds an unexpired one - returned,
dequeued - or the queue empties; it returns none exactly when the queue
holds no unexpired entry (and then the whole queue has been released),
and when it returns a datagram the remaining queue is exactly the
entries that followed it, the released entries being the expired prefix
in front of it. -/
theorem c4_dequeue_dgram_spec (q : List IP_DGRAM) :
    ((dequeue_dgram q).1 = none ↔ ∀ d ∈ q, d.expired = true) ∧
    ((dequeue_dgram q).1 = none →
      (dequeue_dgram q).2.1 = [] ∧ (dequeue_dgram q).2.2 = q) ∧
    (∀ d, (dequeue_dgram q).1 = some d →
      d.expired = false ∧
      q = (dequeue_dgram q).2.2 ++ d :: (dequeue_dgram q).2.1 ∧
      (∀ e ∈ (dequeue_dgram q).2.2, e.expired = true)) :=
  ⟨dequeue_dgram_none q, dequeue_dgram_none_state q, fun d => dequeue_dgram_some q d⟩

/-- An expired datagram for the dequeue witness. -/
def c4exp : IP_DGRAM :=
  { ip_dest := 1, ip_gateway := 0, opt_length := 0, pkt_length := 1
    expired := true, id := 10 }

/-- A live datagram for the dequeue witness. -/
def c4live : IP_DGRAM :=
  { ip_dest := 2, ip_gateway := 0, opt_length := 0, pkt_length := 1
    expired := false, id := 11 }

/-- A trailing datagram for the dequeue witness. -/
def c4tail : IP_DGRAM :=
  { ip_dest := 3, ip_gateway := 0, opt_length := 0, pkt_length := 1
    expired := true, id := 12 }

/-- Claim C4 witness: on [expired, live, expired] the dequeue returns
the live entry, the released prefix is the expired head, and the queue
afterwards is exactly the tail. -/
theorem c4_dequeue_witness :
    c4live.expired = false ∧
    [c4exp, c4live, c4tail]
      = (dequeue_dgram [c4exp, c4live, c4tail]).2.2
        ++ c4live :: (dequeue_dgram [c4exp, c4live, c4tail]).2.1 ∧
    (∀ e ∈ (dequeue_dgram [c4exp, c4live, c4tail]).2.2, e.expired = true) :=
  (c4_dequeue_dgram_spec [c4exp, c4live, c4tail]).2.2 c4live (by decide)

/-- Claim C5: process_arp returns -1 exactly when the packet is not
Ethernet/IPv4 ARP (hardware/protocol space or length wrong) or its
opcode is neither request nor answer, and returns 0 for every
structurally valid packet - whatever the cache, the arpwait queue and
the transport do. -/
theorem c5_process_arp_rc (env : Nat → Bool) (c : Ctx) (q : List IP_DGRAM) (a : ARP) :
    ((process_arp env c q a).rc = 0 ↔ structValid a = true) ∧
    ((process_arp env c q a).rc = -1 ↔ structValid a = false) := by
  by_cases h1 : a.hardware_space ≠ ARP_HARD_ETHER ∨ a.hardware_len ≠ ETH_ALEN ∨
      a.protocol_space ≠ ENET_TYPE_IP ∨ a.protocol_len ≠ 4
  · have hsv : structValid a = false := by
      simp only [structValid, decide_eq_false_iff_not]
      intro hcon
      rcases h1 with h | h | h | h
      · exact h hcon.1.1
      · exact h hcon.1.2.1
      · exact h hcon.1.2.2.1
      · exact h hcon.1.2.2.2
    unfold process_arp
    rw [if_pos h1]
    refine ⟨⟨fun h0 => ?_, fun hsv2 => ?_⟩, fun _ => hsv, fun _ => rfl⟩
    · exfalso; simp at h0
    · exfalso; rw [hsv] at hsv2; simp at hsv2
  · by_cases h2 : a.op_code ≠ ARP_OP_REQ ∧ a.op_code ≠ ARP_OP_ANS
    · have hsv : structValid a = false := by
        simp only [structValid, decide_eq_false_iff_not]
        intro hcon
        rcases hcon.2 with h | h
        · exact h2.1 h
        · exact h2.2 h
      unfold process_arp
      rw [if_neg h1, if_pos h2]
      refine ⟨⟨fun h0 => ?_, fun hsv2 => ?_⟩, fun _ => hsv, fun _ => rfl⟩
      · exfalso; simp at h0
      · exfalso; rw [hsv] at hsv2; simp at hsv2
    · have hsv : structValid a = true := by
        simp only [structValid, decide_eq_true_eq]
        push_neg at h1 h2
        refine ⟨⟨h1.1, h1.2.1, h1.2.2.1, h1.2.2.2⟩, ?_⟩
        by_cases hq : a.op_code = ARP_OP_REQ
        · exact Or.inl hq
        · exact Or.inr (h2 hq)
      unfold process_arp
      rw [if_neg h1, if_neg h2]
      refine ⟨⟨fun _ => hsv, fun _ => rfl⟩, fun hm1 => ?_, fun hf => ?_⟩
      · exfalso; simp at hm1
      · exfalso; rw [hsv] at hf; simp at hf

/-- A structurally valid ARP answer from 10.0.0.9, not addressed to the
c1ctx port. -/
def c5arp : ARP :=
  { hardware_space := ARP_HARD_ETHER
    protocol_space := ENET_TYPE_IP
    hardware_len := ETH_ALEN
    protocol_len := 4
    op_code := ARP_OP_ANS
    src_ether := 0x0A0B0C0D0E0F
    src_ip := 0x0A000009
    dest_ether := 0
    dest_ip := 0x0A000001 }

/-- Claim C5 witness: the valid answer packet is accepted. -/
theorem c5_process_arp_witness :
    (process_arp envT c1ctx [] c5arp).rc = 0 :=
  ((c5_process_arp_rc envT c1ctx [] c5arp).1).mpr (by decide)

/-- Claim C6 (amended): the deferred-queue drain loop (a recursion on
the queue, so it terminates for every finite queue; entries that fail
to resolve go to the temporary queue, never back onto the queue being
drained).  Provided no entry of the queue has a frame sum that wraps
16-bit arithmetic, on return the new arpwait queue consists exactly of
the unexpired entries whose next hop still misses the cache, in their
original relative order; every other entry - expired, resolved and
sent, or errored - has been released (a terminal outcome); and the
cache itself is untouched by the drain.  The frame-sum hypothesis is
necessary: when 20 + opt_length + pkt_length wraps to 0 a datagram
that resolves and is transmitted also makes process_output return 0
and is requeued onto arpwait without a terminal outcome - see the
counterexample below. -/
theorem c6_arp_drain_spec (env : Nat → Bool) (c : Ctx) (q : List IP_DGRAM)
    (h : ∀ e ∈ q, ENET_HDR_SIZE + IP_HDR_SIZE + e.opt_length + e.pkt_length < 65536) :
    (arp_drain env c q []).arpwait
      = q.filter (fun e => !e.expired && deferring c.cache c.ip_addr c.sub_mask e) ∧
    (arp_drain env c q []).released
      = q.filter (fun e => e.expired || !(deferring c.cache c.ip_addr c.sub_mask e)) ∧
    ((arp_drain env c q []).ctx).cache = c.cache := by
  obtain ⟨h1, h2⟩ := arp_drain_filter env q [] c h
  exact ⟨by simpa using h1, h2, arp_drain_cache env q [] c⟩

/-- A datagram whose next hop is cached in c6ctx (so it resolves and is
transmitted) but whose IP length 20 + 32758 + 32758 = 65536 wraps the
int16 return value of process_output to 0, making the drain treat the
sent datagram as not sent. -/
def c6big : IP_DGRAM :=
  { ip_dest := 0xC0A80105
    ip_gateway := 0
    opt_length := 32758
    pkt_length := 32758
    expired := false
    id := 23 }

/-- A datagram whose next hop is cached in c6ctx (so it resolves). -/
def c6hit : IP_DGRAM :=
  { ip_dest := 0xC0A80105
    ip_gateway := 0
    opt_length := 0
    pkt_length := 40
    expired := false
    id := 20 }

/-- A datagram whose next hop misses the cache (still unresolved). -/
def c6miss : IP_DGRAM :=
  { ip_dest := 0xC0A80177
    ip_gateway := 0
    opt_length := 0
    pkt_length := 40
    expired := false
    id := 21 }

/-- An expired datagram for the drain witness. -/
def c6exp : IP_DGRAM :=
  { ip_dest := 0xC0A80105
    ip_gateway := 0
    opt_length := 0
    pkt_length := 40
    expired := true
    id := 22 }

/-- Port state on 192.168.1.1/24 whose cache maps 192.168.1.5 only. -/
def c6ctx : Ctx :=
  { ip_addr := 0xC0A80101
    sub_mask := 0xFFFFFF00
    macaddr := 0x0123456789AB
    cache := [some (0xC0A80105, 0xAABBCCDDEEFF), none]
    stats := stats0
    stat_sd_data := 0
    stat_dropped := 0
    tmpl := tmpl0
    txlog := [] }

/-- Claim C6 counterexample: the original claim fails on a queue whose
single entry has opt_length = pkt_length = 32758 (representable int16
values): its next hop hits the cache, the frame is transmitted (the
transmit log gains one IP frame), yet process_output returns
(int16)(20 + 32758 + 32758) = 0, so the drain requeues the
already-sent datagram onto arpwait and releases nothing - a resolved
entry that never reaches a terminal outcome, and an arpwait queue that
does not consist of still-unresolved entries. -/
theorem c6_arp_drain_counterexample :
    toInt16 (IP_HDR_SIZE + c6big.opt_length + c6big.pkt_length) = 0 ∧
    (arp_cache c6ctx.cache c6big.ip_dest).isSome = true ∧
    (process_output envT c6ctx c6big).1 = 0 ∧
    (arp_drain envT c6ctx [c6big] []).arpwait = [c6big] ∧
    (arp_drain envT c6ctx [c6big] []).released = [] ∧
    ((arp_drain envT c6ctx [c6big] []).ctx).txlog
      = [Frame.ipf 0xAABBCCDDEEFF c6ctx.macaddr c6big.id (ETH_MIN_LEN : Int)] := by
  decide

/-- Claim C6 witness: draining [expired, resolvable, unresolvable]
leaves exactly the unresolvable entry on arpwait and releases the other
two. -/
theorem c6_arp_drain_witness :
    (arp_drain envT c6ctx [c6exp, c6hit, c6miss] []).arpwait = [c6miss] ∧
    (arp_drain envT c6ctx [c6exp, c6hit, c6miss] []).released = [c6exp, c6hit] ∧
    ((arp_drain envT c6ctx [c6exp, c6hit, c6miss] []).ctx).cache = c6ctx.cache := by
  have h := c6_arp_drain_spec envT c6ctx [c6exp, c6hit, c6miss] (by decide)
  refine ⟨?_, ?_, h.2.2⟩
  · rw [h.1]; decide
  · rw [h.2.1]; decide

/-- Claim C7: for every accepted ARP packet the cache afterwards maps
the IP of the sender to the hardware address of the sender; and when the sender
was already cached, the new cache is exactly the in-place overwrite of
the hardware-address field of that entry, so the table length, its
slot position and the occupied count are all unchanged.  (The cache
layout is modelled from the spec since arpcache.c is not under src/;
the non-empty-cache hypothesis reflects its fixed positive capacity.) -/
theorem c7_cache_learn (env : Nat → Bool) (c : Ctx) (q : List IP_DGRAM) (a : ARP)
    (hv : structValid a = true) (hne : c.cache ≠ []) :
    arp_cache ((process_arp env c q a).ctx).cache a.src_ip = some a.src_ether ∧
    (∀ w, arp_cache c.cache a.src_ip = some w →
      ((process_arp env c q a).ctx).cache = arp_update c.cache a.src_ip a.src_ether ∧
      (((process_arp env c q a).ctx).cache).length = c.cache.length ∧
      slot_pos ((process_arp env c q a).ctx).cache a.src_ip = slot_pos c.cache a.src_ip ∧
      occupied ((process_arp env c q a).ctx).cache = occupied c.cache) := by
  constructor
  · cases hch : arp_cache c.cache a.src_ip with
    | none =>
      rw [process_arp_cache_miss env c q a hv hch]
      exact arp_cache_enter c.cache a.src_ip a.src_ether hch hne
    | some w =>
      rw [process_arp_cache_hit env c q a w hv hch]
      exact arp_cache_update c.cache a.src_ip a.src_ether w hch
  · intro w hw
    rw [process_arp_cache_hit env c q a w hv hw]
    exact ⟨rfl, arp_update_length _ _ _, arp_update_slot_pos _ _ _,
      arp_update_occupied _ _ _⟩

/-- Port state whose cache already holds the sender of c7arp in slot 1. -/
def c7ctx : Ctx :=
  { ip_addr := 0xC0A80101
    sub_mask := 0xFFFFFF00
    macaddr := 0x0123456789AB
    cache := [some (0xC0A80105, 0xAABBCCDDEEFF), some (0x0A000009, 0x111111111111)]
    stats := stats0
    stat_sd_data := 0
    stat_dropped := 0
    tmpl := tmpl0
    txlog := [] }

/-- A valid ARP answer from 10.0.0.9 with a new hardware address. -/
def c7arp : ARP :=
  { hardware_space := ARP_HARD_ETHER
    protocol_space := ENET_TYPE_IP
    hardware_len := ETH_ALEN
    protocol_len := 4
    op_code := ARP_OP_ANS
    src_ether := 0x222222222222
    src_ip := 0x0A000009
    dest_ether := 0
    dest_ip := 0x0A000001 }

/-- Claim C7 witness: the already-cached sender gets its hardware
address overwritten in place; position, length and occupancy are
unchanged and the lookup returns the new address. -/
theorem c7_cache_learn_witness :
    arp_cache ((process_arp envT c7ctx [] c7arp).ctx).cache c7arp.src_ip
      = some c7arp.src_ether ∧
    ((process_arp envT c7ctx [] c7arp).ctx).cache
      = arp_update c7ctx.cache c7arp.src_ip c7arp.src_ether ∧
    (((process_arp envT c7ctx [] c7arp).ctx).cache).length = c7ctx.cache.length ∧
    slot_pos ((process_arp envT c7ctx [] c7arp).ctx).cache c7arp.src_ip
      = slot_pos c7ctx.cache c7arp.src_ip ∧
    occupied ((process_arp envT c7ctx [] c7arp).ctx).cache = occupied c7ctx.cache := by
  have h := c7_cache_learn envT c7ctx [] c7arp (by decide) (by decide)
  exact ⟨h.1, h.2 0x111111111111 (by decide)⟩

/-- Claim C8: a structurally valid request addressed to the IP of the port
makes the log of transmitted reply frames grow by exactly one frame,
whose Ethernet destination and ARP destination hardware address are the
hardware address of the requester, whose ARP destination IP is the
IP of the requester, whose opcode is the answer opcode, and whose source
fields are the MAC and IP of the port; an answer addressed to the port
transmits no reply at all (with an empty deferred queue the transmit
log does not change by even one frame) and only bumps the
answers-received counter. -/
theorem c8_arp_reply (env : Nat → Bool) (c : Ctx) (q : List IP_DGRAM) (a : ARP)
    (hv : structValid a = true) (hdst : a.dest_ip = c.ip_addr) :
    (a.op_code = ARP_OP_REQ →
      ((process_arp env c q a).ctx).txlog.filter isReply
        = c.txlog.filter isReply ++
          [Frame.arpf a.src_ether c.macaddr ARP_OP_ANS c.macaddr c.ip_addr
            a.src_ether a.src_ip]) ∧
    (a.op_code = ARP_OP_ANS →
      ((process_arp env c q a).ctx).txlog.filter isReply = c.txlog.filter isReply ∧
      (q = [] → ((process_arp env c q a).ctx).txlog = c.txlog) ∧
      ((process_arp env c q a).ctx).stats.arp_answers_received
        = c.stats.arp_answers_received + 1) := by
  constructor
  · intro hop
    exact process_arp_reply_req env c q a hv hdst hop
  · intro hop
    refine ⟨process_arp_reply_ans env c q a hv hop, ?_,
      process_arp_ans_count env c q a hv hop hdst⟩
    intro hq
    subst hq
    exact process_arp_ans_txlog_nil env c a hv hop

/-- A valid ARP request from 192.168.1.9 asking for the c6ctx
IP address. -/
def c8arp : ARP :=
  { hardware_space := ARP_HARD_ETHER
    protocol_space := ENET_TYPE_IP
    hardware_len := ETH_ALEN
    protocol_len := 4
    op_code := ARP_OP_REQ
    src_ether := 0x0A0B0C0D0E0F
    src_ip := 0xC0A80109
    dest_ether := 0
    dest_ip := 0xC0A80101 }

/-- Claim C8 witness: processing the request transmits exactly one
reply frame, addressed to the requester. -/
theorem c8_arp_reply_witness :
    ((process_arp envT c6ctx [] c8arp).ctx).txlog.filter isReply
      = c6ctx.txlog.filter isReply ++
        [Frame.arpf c8arp.src_ether c6ctx.macaddr ARP_OP_ANS c6ctx.macaddr
          c6ctx.ip_addr c8arp.src_ether c8arp.src_ip] :=
  (c8_arp_reply envT c6ctx [] c8arp (by decide) (by decide)).1 (by decide)

/-- An inbound IP header that passes every validation: header length 6
words (24 bytes, 4 bytes of options), total length 80. -/
def c9hdr : IP_HDR :=
  { hd_len := 6
    length := 80
    ip_dest := 0xC0A80101
    ip_src := 0x0A000009 }

/-- Allocation outcomes in which the options buffer allocation fails. -/
def c9env : AllocEnv := { dgramOk := true, optionsOk := false, pktOk := true }

/-- A port with three live allocations, all below the fresh identifier
used by the witness. -/
def c9port : XPort :=
  { ctx := c2ctx
    active := true
    interface_up := true
    send_q := []
    recv_q := [c1dgram]
    arpwait := []
    released := []
    allocs := [0, 1, 2] }

/-- Claim C9 witness: an otherwise valid frame whose options-buffer
allocation fails is rejected, and afterwards the receive queue and the
live allocations are exactly what they were before the call. -/
theorem c9_process_ip_witness :
    ((process_ip c9port c9env 5 c9hdr 100).2).recv_q = c9port.recv_q ∧
    ((process_ip c9port c9env 5 c9hdr 100).2).allocs = c9port.allocs :=
  (c9_process_ip c9port c9env 5 c9hdr 100 (by decide)).2.1 (by decide)

/-- Claim C10 witness: with a failing transport the packet counter and
the error counter both step while the sent-byte counter stays put. -/
theorem c10_send_arp_witness :
    ((send_arp envF c1ctx).2).stats.send_arp_packets
      = c1ctx.stats.send_arp_packets + 1 ∧
    ((send_arp envF c1ctx).2).stats.send_arp_packets_err
      = c1ctx.stats.send_arp_packets_err + 1 ∧
    ((send_arp envF c1ctx).2).stat_sd_data = c1ctx.stat_sd_data := by
  have h := c10_send_arp_stats envF c1ctx
  exact ⟨h.1, (h.2.2.2 (by decide)).1, (h.2.2.2 (by decide)).2⟩
